import Mathlib

/-!
Verification of the `pg-tenant-setup` provisioning tool (Go) against its
natural-language specification.

The Go package `pg` is shallowly embedded below.  Pure helpers
(`tenantSchemaPrefix`, `tenantSchemaGroupNames`,
`newTenantSchemaUserCredentials`, `GenerateRandomPassword`, named here with
`Pre` for `Prefix` where the development's lexical rules require it) become
Lean functions; the entropy source `crypto/rand` is modelled as an explicit
stream `Nat -> Option Nat` (`none` = entropy-source failure, `some k` = a
uniformly drawn index, embedded as an arbitrary natural reduced modulo the
charset length, which covers exactly the values `rand.Int` can return).
Go strings are Lean `String`s; character sets are manipulated as `List Char`
(the `.data` view of the Go string).
-/

/-- Suffix constants from `types.go`. -/
def ownerSuffix : String := "_owner"

def schemaAdminSuffix : String := "_schadm"

def roSuffix : String := "_ro"

def rwSuffix : String := "_rw"

def groupSuffix : String := "_grp"

def userSuffix : String := "_usr"

/-- Source `PasswordConfig` from `types.go`.  Go's `Length` is an `int`; only
non-negative lengths are meaningful (a negative length would panic in
`make`), so it is embedded as `Nat`. -/
structure PasswordConfig where
  Length : Nat := 0
  UseLetters : Bool := false
  UseSpecial : Bool := false
  UseNum : Bool := false
  ExcludeSpecial : String := ""
deriving Repr, DecidableEq

/-- Source `ConnectDBConfig` from `types.go`. -/
structure ConnectDBConfig where
  DBName : String := ""
  RoleName : String := ""
deriving Repr, DecidableEq

/-- Source `UserCredentials` from `types.go`. -/
structure UserCredentials where
  Username : String
  Password : String
deriving Repr, DecidableEq

/-- Source `SchemaGroups` from `types.go`: field order `Admin`, `ReadWrite`,
`ReadOnly` (the order matters for the positional literal in the superseded
`helpers.go` revision). -/
structure SchemaGroups where
  Admin : String
  ReadWrite : String
  ReadOnly : String
deriving Repr, DecidableEq

/-- Source `SchemaUsers` from `types.go`. -/
structure SchemaUsers where
  Admin : UserCredentials
  ReadWrite : UserCredentials
  ReadOnly : UserCredentials
deriving Repr, DecidableEq

/-- Source `tenantOwnerName` from `helpers.go` (current revision,
`src/unnamed/part_002`, the one `pg.go` links against). -/
def tenantOwnerName (roleNamePre : String) : String :=
  roleNamePre ++ ownerSuffix

/-- Source `tenantSchemaPrefix` from `helpers.go` (source name ends in a word this
development cannot use as an identifier, hence `Pre`). -/
def tenantSchemaPre (roleNamePre : String) (schemaName : String) : String :=
  roleNamePre ++ "_" ++ schemaName

/-- Source `tenantSchemaGroupNames` from the current `helpers.go` revision
(`src/unnamed/part_002` lines 19-31): the struct literal assigns the
fields BY NAME (`Admin: admin, ReadWrite: readwrite, ReadOnly: readonly`). -/
def tenantSchemaGroupNames (roleNamePre : String) (schemaName : String) :
    SchemaGroups :=
  let p := tenantSchemaPre roleNamePre schemaName
  let admin := p ++ schemaAdminSuffix ++ groupSuffix
  let readwrite := p ++ rwSuffix ++ groupSuffix
  let readonly := p ++ roSuffix ++ groupSuffix
  { Admin := admin, ReadWrite := readwrite, ReadOnly := readonly }

/-- Source `tenantSchemaGroupNames` as written in the SUPERSEDED revision
`src/pg/helpers.go` lines 14-22: there the `return` is the POSITIONAL
literal `SchemaGroups\x7bAdmin, ReadOnly, ReadWrite\x7d`, so with field
order (Admin, ReadWrite, ReadOnly) the local `ReadOnly` lands in the
`ReadWrite` field and vice versa. -/
def tenantSchemaGroupNamesLegacy (dbName : String) (schemaName : String) :
    SchemaGroups :=
  let p := tenantSchemaPre dbName schemaName
  let admin := p ++ schemaAdminSuffix ++ groupSuffix
  let readwrite := p ++ rwSuffix ++ groupSuffix
  let readonly := p ++ roSuffix ++ groupSuffix
  { Admin := admin, ReadWrite := readonly, ReadOnly := readwrite }

/-- The letters charset constant of `GenerateRandomPassword`. -/
def lettersStr : String := "abcdefghijklmnopqrstuvwxyzABCDEFGHIJKLMNOPQRSTUVWXYZ"

/-- The numbers charset constant of `GenerateRandomPassword`. -/
def numbersStr : String := "0123456789"

/-- The special-characters charset constant of `GenerateRandomPassword`. -/
def specialCharsStr : String := "!#$%^&*()-_=+[]\x7b\x7d|;:,.<>?~`"

/-- The exclusion loop of `GenerateRandomPassword`: for each rune of
`ExcludeSpecial`, `strings.ReplaceAll(charset, string(char), "")` removes
every occurrence of that single character. -/
def applyExclude (cs : List Char) (ex : List Char) : List Char :=
  ex.foldl (fun acc c => acc.filter (fun x => x ≠ c)) cs

/-- The charset-building phase of `GenerateRandomPassword` (lines 75-98 of
the current `helpers.go`): union the requested classes in source order
(letters, numbers, special), strip `ExcludeSpecial`, and fall back to
letters+numbers when the result is empty. -/
def buildCharsetPre (config : PasswordConfig) : List Char :=
  let cs :=
    (if config.UseLetters then lettersStr.data else []) ++
    (if config.UseNum then numbersStr.data else []) ++
    (if config.UseSpecial then specialCharsStr.data else [])
  if config.ExcludeSpecial = "" then cs
  else applyExclude cs config.ExcludeSpecial.data

def buildCharset (config : PasswordConfig) : List Char :=
  if buildCharsetPre config = [] then lettersStr.data ++ numbersStr.data
  else buildCharsetPre config

/-- Source `charset[randomIndex.Int64()]`: `rand.Int` draws uniformly below
`len(charset)`; an arbitrary natural reduced modulo the length ranges over
exactly those indices.  The default is never reached when `cs` is
nonempty. -/
def pickChar (cs : List Char) (k : Nat) : Char :=
  cs.getD (k % cs.length) 'a'

/-- The generation loop of `GenerateRandomPassword`: character `i` draws
`entropy i`; the first `none` (entropy exhaustion) aborts the whole
generation, as the Go loop returns on the first `rand.Int` error. -/
def genFrom (cs : List Char) (entropy : Nat → Option Nat) : Nat → Nat →
    Option (List Char)
  | _, 0 => some []
  | i, n + 1 =>
    match entropy i with
    | none => none
    | some k =>
      match genFrom cs entropy (i + 1) n with
      | none => none
      | some rest => some (pickChar cs k :: rest)

/-- Source `GenerateRandomPassword` from the current `helpers.go`.  The Go function
returns the pair `(string, error)`; on entropy failure that pair is
`("", err)`, embedded as `("", some msg)`. -/
def GenerateRandomPassword (config : PasswordConfig)
    (entropy : Nat → Option Nat) : String × Option String :=
  let cs := buildCharset config
  let len := if config.Length = 0 then 32 else config.Length
  match genFrom cs entropy 0 len with
  | none => ("", some "unable to generate random index")
  | some l => (⟨l⟩, none)

/-- Source `newTenantSchemaUserCredentials` from the current `helpers.go`:
each of the three passwords comes from an independent call to
`GenerateRandomPassword` with the ZERO-VALUE config, and the error return
is DISCARDED with `_` — only the first component (the empty string, on
failure) is kept.  `entropy p` is the stream feeding password slot `p`
(0 = admin, 1 = readwrite, 2 = readonly). -/
def newTenantSchemaUserCredentials (roleNamePre : String)
    (schemaName : String) (entropy : Nat → Nat → Option Nat) : SchemaUsers :=
  let p := tenantSchemaPre roleNamePre schemaName
  let adminUsername := p ++ schemaAdminSuffix ++ userSuffix
  let adminPassword := (GenerateRandomPassword {} (entropy 0)).1
  let rwUsername := p ++ rwSuffix ++ userSuffix
  let rwPassword := (GenerateRandomPassword {} (entropy 1)).1
  let roUsername := p ++ roSuffix ++ userSuffix
  let roPassword := (GenerateRandomPassword {} (entropy 2)).1
  { Admin := { Username := adminUsername, Password := adminPassword }
    ReadWrite := { Username := rwUsername, Password := rwPassword }
    ReadOnly := { Username := roUsername, Password := roPassword } }

theorem str_append_assoc (a b c : String) : a ++ b ++ c = a ++ (b ++ c) := by
  apply congrArg String.mk
  show (a.data ++ b.data) ++ c.data = a.data ++ (b.data ++ c.data)
  exact List.append_assoc _ _ _

theorem append_left_ne (p a b : String) (h : a ≠ b) : p ++ a ≠ p ++ b := by
  intro he
  apply h
  apply String.ext
  have hd := congrArg String.data he
  rw [String.data_append, String.data_append] at hd
  exact List.append_cancel_left hd

/-!
Section: Execution model

`src/pg/pg.go` is embedded as explicit state passing.  A `World` fixes the
environment of one process run: the halt-on-error and audit-file
environment variables, the operator's role (`pg.roleName`, read from
`SELECT current_role` at connect time), the outcome `Exec` would report for
each SQL text, the catalog oracles behind `CheckIfRoleExists` /
`CheckIfDBExists`, pool-creation and connection-acquisition outcomes per
database name, and the entropy source (call index, password slot, draw).
`St` is the observable trace: every statement handed to `Exec` (in order),
the audit-sink lines, and whether `os.Exit(1)` has fired (after which
nothing further runs, modelled by guards on `exited`).
-/

structure World where
  haltOnError : Bool := false
  auditOn : Bool := false
  credsConfigured : Bool := false
  opRole : String := "postgres"
  execErr : String → Option String := fun _ => none
  roleExistsO : String → Bool := fun _ => false
  dbExistsO : String → Bool := fun _ => false
  connectErr : String → Option String := fun _ => none
  acquireErr : String → Option String := fun _ => none
  entropy : Nat → Nat → Nat → Option Nat := fun _ _ _ => some 0

structure St where
  executed : List String := []
  audit : List String := []
  exited : Bool := false
deriving Repr, DecidableEq

/-- Source `appendToFile` on the audit sink, when configured (one entry per
`fmt.Sprintf` line; the trailing newline of each line is implicit). -/
def auditAppend (w : World) (s : St) (line : String) : St :=
  if s.exited then s
  else if w.auditOn then { s with audit := s.audit ++ [line] } else s

/-- Source `RunExec` (`pg.go` lines 101-118): execute, wrap a failure with the
offending SQL, `os.Exit(1)` when halt-on-error is set (note: BEFORE the
audit append), otherwise append the statement to the audit sink and return
the (possibly wrapped) error. -/
def RunExec (w : World) (s : St) (sql : String) : St × Option String :=
  if s.exited then (s, none)
  else
    let s := { s with executed := s.executed ++ [sql] }
    match w.execErr sql with
    | some e =>
      let msg := e ++ "\nwith sql:\n" ++ sql
      if w.haltOnError then ({ s with exited := true }, some msg)
      else (auditAppend w s sql, some msg)
    | none => (auditAppend w s sql, none)

/-- Source `CheckIfRoleExists` (`pg.go` lines 128-139): a single-row catalog probe;
absence of a row is a silent `false`.  It issues a read-only `SELECT`
outside `RunExec`, so it contributes nothing to the statement trace. -/
def CheckIfRoleExists (w : World) (roleName : String) : Bool :=
  w.roleExistsO roleName

/-- Source `CheckIfDBExists` (`pg.go` lines 141-152). -/
def CheckIfDBExists (w : World) (dbName : String) : Bool :=
  w.dbExistsO dbName

/-- The combined statement of `DropRole` (`pg.go` line 155). -/
def dropOwnedByRoleStmt (roleName opRole : String) : String :=
  "REASSIGN OWNED BY " ++ roleName ++ " TO " ++ opRole ++ "; SET ROLE " ++
    roleName ++ "; DROP OWNED BY " ++ roleName ++ "; RESET ROLE;"

def dropRoleStmt (roleName : String) : String :=
  "DROP ROLE IF EXISTS " ++ roleName ++ ";"

/-- Source `DropRole` (`pg.go` lines 154-163): no-op when the existence probe says
the role is absent; otherwise reassign-and-drop-owned, then drop the
role. -/
def DropRole (w : World) (s : St) (roleName : String) : St :=
  if s.exited then s
  else if CheckIfRoleExists w roleName then
    let s := (RunExec w s (dropOwnedByRoleStmt roleName w.opRole)).1
    (RunExec w s (dropRoleStmt roleName)).1
  else s

def alterDBOwnerStmt (dbName owner : String) : String :=
  "ALTER DATABASE " ++ dbName ++ " OWNER TO " ++ owner ++ ";"

def dropDBStmt (dbName : String) : String :=
  "DROP DATABASE IF EXISTS " ++ dbName ++ " WITH (FORCE);"

/-- Source `DropDB` (`pg.go` lines 183-192). -/
def DropDB (w : World) (s : St) (dbName : String) : St :=
  if s.exited then s
  else if CheckIfDBExists w dbName then
    let s := (RunExec w s (alterDBOwnerStmt dbName w.opRole)).1
    (RunExec w s (dropDBStmt dbName)).1
  else s

def createGroupStmt (groupname : String) : String :=
  "CREATE ROLE " ++ groupname ++ " WITH NOLOGIN;"

/-- Source `CreateGroup` (`pg.go` lines 194-198). -/
def CreateGroup (w : World) (s : St) (groupname : String) : St × Option String :=
  RunExec w s (createGroupStmt groupname)

def createUserStmt (username password : String) : String :=
  "CREATE ROLE " ++ username ++ " WITH LOGIN PASSWORD '" ++ password ++ "';"

def grantGroupStmt (groupname username : String) : String :=
  "GRANT " ++ groupname ++ " TO " ++ username ++ ";"

/-- Source `CreateUser` (`pg.go` lines 212-223); the create error is overwritten by
the grant error when a group is supplied, as in the source. -/
def CreateUser (w : World) (s : St) (user : UserCredentials)
    (groupname : String) : St × Option String :=
  let (s, e) := RunExec w s (createUserStmt user.Username user.Password)
  if groupname = "" then (s, e)
  else RunExec w s (grantGroupStmt groupname user.Username)

/-- Source `DropTenantSchemaUsers` (`pg.go` lines 165-171): note the source derives
the usernames by building a full credential set (drawing three fresh
passwords that are immediately discarded). -/
def DropTenantSchemaUsers (w : World) (s : St) (roleNamePre schemaName : String)
    (entropy : Nat → Nat → Option Nat) : St :=
  let schemaUsers := newTenantSchemaUserCredentials roleNamePre schemaName entropy
  let s := DropRole w s schemaUsers.ReadOnly.Username
  let s := DropRole w s schemaUsers.ReadWrite.Username
  DropRole w s schemaUsers.Admin.Username

/-- Source `DropTenantSchemaGroups` (`pg.go` lines 173-181). -/
def DropTenantSchemaGroups (w : World) (s : St) (roleNamePre schemaName : String)
    (entropy : Nat → Nat → Option Nat) : St :=
  let s := DropTenantSchemaUsers w s roleNamePre schemaName entropy
  let schemaGroups := tenantSchemaGroupNames roleNamePre schemaName
  let s := DropRole w s schemaGroups.ReadOnly
  let s := DropRole w s schemaGroups.ReadWrite
  DropRole w s schemaGroups.Admin

/-- Source `NewTenantSchemaGroups` (`pg.go` lines 200-210); the `CreateGroup`
errors are ignored at this call site, as in the source. -/
def NewTenantSchemaGroups (w : World) (s : St) (roleNamePre schemaName : String)
    (entropy : Nat → Nat → Option Nat) : SchemaGroups × St :=
  let s := DropTenantSchemaGroups w s roleNamePre schemaName entropy
  let schemaGroups := tenantSchemaGroupNames roleNamePre schemaName
  let s := (CreateGroup w s schemaGroups.Admin).1
  let s := (CreateGroup w s schemaGroups.ReadWrite).1
  let s := (CreateGroup w s schemaGroups.ReadOnly).1
  (schemaGroups, s)

/-- Source `NewTenantSchemaUsers` (`pg.go` lines 225-236): `e1` feeds the
discarded credential set built for the teardown, `e2` the credentials that
are actually created. -/
def NewTenantSchemaUsers (w : World) (s : St) (roleNamePre schemaName : String)
    (e1 e2 : Nat → Nat → Option Nat) : SchemaUsers × St :=
  let s := DropTenantSchemaUsers w s roleNamePre schemaName e1
  let schemaGroups := tenantSchemaGroupNames roleNamePre schemaName
  let schemaUsers := newTenantSchemaUserCredentials roleNamePre schemaName e2
  let s := (CreateUser w s schemaUsers.Admin schemaGroups.Admin).1
  let s := (CreateUser w s schemaUsers.ReadWrite schemaGroups.ReadWrite).1
  let s := (CreateUser w s schemaUsers.ReadOnly schemaGroups.ReadOnly).1
  (schemaUsers, s)

/-!
Section: Scoped connections and the two orchestrators
-/

def setRoleStmt (roleName : String) : String := "SET ROLE " ++ roleName ++ ";"

def resetRoleStmt : String := "RESET ROLE;"

def connectMarker (dbName : String) : String :=
  "-- connecting to database " ++ dbName

def closeMarker (dbName : String) : String :=
  "-- closing connection to database " ++ dbName

/-- Source `ConnectDB` (`pg.go` lines 52-99): pool construction is lazy, so it
executes no SQL; it can only fail to build the pool. -/
def ConnectDB (w : World) (connConfig : ConnectDBConfig) : Option String :=
  w.connectErr connConfig.DBName

/-- Source `pool.Acquire` on a scoped pool: the `BeforeConnect` hook writes the
connect marker to the audit sink, then the physical connection is
established, then `AfterConnect` runs `SET ROLE` via `RunExec` when a role
is pinned (a failure there makes the acquisition fail). -/
def acquireConn (w : World) (s : St) (dbName roleName : String) :
    St × Option String :=
  let s := auditAppend w s (connectMarker dbName)
  match w.acquireErr dbName with
  | some e => (s, some e)
  | none =>
    if roleName = "" then (s, none)
    else
      let (s, e) := RunExec w s (setRoleStmt roleName)
      match e with
      | some msg => (s, some msg)
      | none => (s, none)

/-- The deferred `conn.Release(); tmpPool.Close()` pair: `BeforeClose` runs
`RESET ROLE` through `RunExec` when a role was pinned, then writes the
close marker.  Nothing runs once the process has exited. -/
def closeScoped (w : World) (s : St) (dbName roleName : String) : St :=
  if s.exited then s
  else if roleName = "" then auditAppend w s (closeMarker dbName)
  else
    let s := (RunExec w s resetRoleStmt).1
    auditAppend w s (closeMarker dbName)

/-- The `roleNamePrefix` computation shared by both orchestrators
(`pg.go` lines 240-243 and 317-320): the tenant name, defaulting to the
database name when unset. -/
def roleNameBase (dbName tenantName : String) : String :=
  if tenantName = "" then dbName else tenantName

def createDBStmt (dbName : String) : String :=
  "CREATE DATABASE " ++ dbName ++ ";"

def revokeDBPublicStmt (dbName : String) : String :=
  "REVOKE ALL ON DATABASE " ++ dbName ++ " FROM PUBLIC;"

def revokeSchemaPublicStmt : String :=
  "REVOKE CREATE ON SCHEMA public FROM PUBLIC;"

/-- Source `NewTenantDB` (`pg.go` lines 238-306): teardown, create owner role,
create database, set its owner, revoke PUBLIC privileges.  The first three
creation steps are fatal and trigger the best-effort cleanup of the source;
the revokes are unchecked.  Returns the final trace and the function's
error return. -/
def NewTenantDB (w : World) (dbName tenantName : String) : St × Option String :=
  let roleNamePre := roleNameBase dbName tenantName
  let ownerRole := tenantOwnerName roleNamePre
  let s : St := {}
  let s := DropDB w s dbName
  let s := DropRole w s ownerRole
  let (s, e) := CreateGroup w s ownerRole
  match e with
  | some msg => (s, some ("unable to create owner role: " ++ msg))
  | none =>
    let (s, e) := RunExec w s (createDBStmt dbName)
    match e with
    | some msg =>
      let s := DropRole w s ownerRole
      (s, some ("unable to create database: " ++ msg))
    | none =>
      let (s, e) := RunExec w s (alterDBOwnerStmt dbName ownerRole)
      match e with
      | some msg =>
        let s := DropDB w s dbName
        let s := DropRole w s ownerRole
        (s, some ("unable to set database owner: " ++ msg))
      | none =>
        let s := (RunExec w s (revokeDBPublicStmt dbName)).1
        if s.exited then (s, none)
        else
          match ConnectDB w { DBName := dbName } with
          | some e => (s, some e)
          | none =>
            match acquireConn w s dbName "" with
            | (s, some e) => (s, some ("unable to acquire connection: " ++ e))
            | (s, none) =>
              let s := (RunExec w s revokeSchemaPublicStmt).1
              let s := closeScoped w s dbName ""
              (s, none)

def dropSchemaStmt (schemaName : String) : String :=
  "DROP SCHEMA IF EXISTS " ++ schemaName ++ " CASCADE;"

def createSchemaStmt (schemaName : String) : String :=
  "CREATE SCHEMA " ++ schemaName ++ ";"

def revokeCreateOnSchemaStmt (schemaName : String) : String :=
  "REVOKE CREATE ON SCHEMA " ++ schemaName ++ " FROM PUBLIC;"

def grantDBAccessStmt (dbName : String) (g : SchemaGroups) : String :=
  "GRANT CONNECT, TEMPORARY ON DATABASE " ++ dbName ++ " TO " ++
    g.Admin ++ ", " ++ g.ReadWrite ++ ", " ++ g.ReadOnly ++ ";"

def grantSchemaAdminCreateStmt (schemaName : String) (g : SchemaGroups) : String :=
  "GRANT USAGE, CREATE ON SCHEMA " ++ schemaName ++ " TO " ++ g.Admin ++ ";"

def grantSchemaAdminTablesStmt (schemaName : String) (g : SchemaGroups) : String :=
  "GRANT ALL ON ALL TABLES IN SCHEMA " ++ schemaName ++ " TO " ++ g.Admin ++ ";"

def grantSchemaAdminSequencesStmt (schemaName : String) (g : SchemaGroups) : String :=
  "GRANT ALL ON ALL SEQUENCES IN SCHEMA " ++ schemaName ++ " TO " ++ g.Admin ++ ";"

def grantSchemaUsageStmt (schemaName : String) (g : SchemaGroups) : String :=
  "GRANT USAGE ON SCHEMA " ++ schemaName ++ " TO " ++ g.ReadWrite ++ ", " ++
    g.ReadOnly ++ ";"

def grantTablesReadStmt (schemaName : String) (g : SchemaGroups) : String :=
  "GRANT SELECT ON ALL TABLES IN SCHEMA " ++ schemaName ++ " TO " ++
    g.ReadWrite ++ ", " ++ g.ReadOnly ++ ";"

def grantSequencesReadStmt (schemaName : String) (g : SchemaGroups) : String :=
  "GRANT USAGE, SELECT ON ALL SEQUENCES IN SCHEMA " ++ schemaName ++ " TO " ++
    g.ReadWrite ++ ", " ++ g.ReadOnly ++ ";"

/-- The shared fragment `defaultAlter` of the four default-privilege
statements. -/
def defaultAlterPart (schemaName : String) : String :=
  "ALTER DEFAULT PRIVILEGES IN SCHEMA " ++ schemaName

def grantDefaultSequencesReadStmt (schemaName : String) (g : SchemaGroups) : String :=
  defaultAlterPart schemaName ++ " GRANT USAGE, SELECT ON SEQUENCES TO " ++
    g.ReadWrite ++ ", " ++ g.ReadOnly ++ ";"

def grantDefaultSequencesWriteStmt (schemaName : String) (g : SchemaGroups) : String :=
  defaultAlterPart schemaName ++ " GRANT UPDATE ON SEQUENCES TO " ++
    g.ReadWrite ++ ";"

def grantDefaultTablesReadStmt (schemaName : String) (g : SchemaGroups) : String :=
  defaultAlterPart schemaName ++ " GRANT SELECT ON TABLES TO " ++
    g.ReadOnly ++ ";"

def grantDefaultTablesReadWriteStmt (schemaName : String) (g : SchemaGroups) : String :=
  defaultAlterPart schemaName ++ " GRANT SELECT, INSERT, UPDATE, DELETE ON TABLES TO " ++
    g.ReadWrite ++ ";"

/-- The role pinned on the scoped connections of `NewTenantSchema`
(`pg.go` lines 317-326): the caller's role if supplied, otherwise the
derived tenant owner role. -/
def schemaSessionRole (dbName tenantName roleName : String) : String :=
  if roleName = "" then tenantOwnerName (roleNameBase dbName tenantName)
  else roleName

/-- The outcome of one `NewTenantSchema` run: the trace, the function's
error return, and the credential set handed to the credential sink (when
one is configured and the run got that far). -/
structure RunResult where
  s : St
  err : Option String
  emitted : Option SchemaUsers := none
deriving Repr, DecidableEq

/-- Source `NewTenantSchema` (`pg.go` lines 308-483): guard on the database name;
scoped session dropping and recreating the schema (fatal on creation
failure); group-role provisioning; grant wiring (all best-effort); user
provisioning; credential emission.  `w.entropy 0/1/2` feed the three
credential-set constructions the source performs (teardown inside
`NewTenantSchemaGroups`, teardown inside `NewTenantSchemaUsers`, and the
credentials actually created). -/
def NewTenantSchema (w : World) (schemaName tenantName : String)
    (connConfig : ConnectDBConfig) : RunResult :=
  if connConfig.DBName = "" then
    { s := {}, err := some "missing database name" }
  else
    let dbName := connConfig.DBName
    let roleNamePre := roleNameBase dbName tenantName
    let role := schemaSessionRole dbName tenantName connConfig.RoleName
    let s : St := {}
    match ConnectDB w { DBName := dbName, RoleName := role } with
    | some e => { s := s, err := some ("unable to connect to database: " ++ e) }
    | none =>
      match acquireConn w s dbName role with
      | (s, some e) => { s := s, err := some ("unable to acquire connection: " ++ e) }
      | (s, none) =>
        let s := (RunExec w s (dropSchemaStmt schemaName)).1
        let (s, e) := RunExec w s (createSchemaStmt schemaName)
        match e with
        | some msg =>
          let s := closeScoped w s dbName role
          { s := s, err := some ("unable to create schema: " ++ msg) }
        | none =>
          let s := (RunExec w s (revokeCreateOnSchemaStmt schemaName)).1
          let s := closeScoped w s dbName role
          if s.exited then { s := s, err := none }
          else
            let (tenantGroups, s) :=
              NewTenantSchemaGroups w s roleNamePre schemaName (w.entropy 0)
            let s := (RunExec w s (grantDBAccessStmt dbName tenantGroups)).1
            if s.exited then { s := s, err := none }
            else
              match ConnectDB w { DBName := dbName, RoleName := role } with
              | some e => { s := s, err := some ("unable to connect to database: " ++ e) }
              | none =>
                match acquireConn w s dbName role with
                | (s, some e) => { s := s, err := some ("unable to acquire connection: " ++ e) }
                | (s, none) =>
                  let s := (RunExec w s (grantSchemaAdminCreateStmt schemaName tenantGroups)).1
                  let s := (RunExec w s (grantSchemaAdminTablesStmt schemaName tenantGroups)).1
                  let s := (RunExec w s (grantSchemaAdminSequencesStmt schemaName tenantGroups)).1
                  let s := (RunExec w s (grantSchemaUsageStmt schemaName tenantGroups)).1
                  let s := (RunExec w s (grantTablesReadStmt schemaName tenantGroups)).1
                  let s := (RunExec w s (grantSequencesReadStmt schemaName tenantGroups)).1
                  let s := (RunExec w s (grantDefaultSequencesReadStmt schemaName tenantGroups)).1
                  let s := (RunExec w s (grantDefaultSequencesWriteStmt schemaName tenantGroups)).1
                  let s := (RunExec w s (grantDefaultTablesReadStmt schemaName tenantGroups)).1
                  let s := (RunExec w s (grantDefaultTablesReadWriteStmt schemaName tenantGroups)).1
                  let s := closeScoped w s dbName role
                  if s.exited then { s := s, err := none }
                  else
                    let (tenantUsers, s) :=
                      NewTenantSchemaUsers w s roleNamePre schemaName
                        (w.entropy 1) (w.entropy 2)
                    if s.exited then { s := s, err := none }
                    else
                      { s := s, err := none,
                        emitted := if w.credsConfigured then some tenantUsers else none }

/-!
Section: Naming theorems
-/

/-- C1: for every role-name base `p` and schema name `s`, the derived
`SchemaGroups` maps each tier to the name carrying that tier's own purpose
suffix (`Admin` = `p_s_schadm_grp`, `ReadWrite` = `p_s_rw_grp`, `ReadOnly`
= `p_s_ro_grp`); in particular schema `billing` in database `acme` with the
tenant key unset (so the base is the database name) derives
`acme_billing_schadm_grp` / `acme_billing_rw_grp` / `acme_billing_ro_grp`
for the Admin / ReadWrite / ReadOnly tiers. -/
theorem C1_tenantSchemaGroupNames_tier_mapping (p s : String) :
    (tenantSchemaGroupNames p s).Admin = p ++ "_" ++ s ++ "_schadm_grp" ∧
    (tenantSchemaGroupNames p s).ReadWrite = p ++ "_" ++ s ++ "_rw_grp" ∧
    (tenantSchemaGroupNames p s).ReadOnly = p ++ "_" ++ s ++ "_ro_grp" ∧
    tenantSchemaGroupNames "acme" "billing" =
      { Admin := "acme_billing_schadm_grp",
        ReadWrite := "acme_billing_rw_grp",
        ReadOnly := "acme_billing_ro_grp" } := by
  refine ⟨?_, ?_, ?_, by decide⟩ <;>
    simp only [tenantSchemaGroupNames, tenantSchemaPre, schemaAdminSuffix,
      rwSuffix, roSuffix, groupSuffix] <;>
    rw [str_append_assoc] <;> rfl

/-- The superseded `src/pg/helpers.go` revision of `tenantSchemaGroupNames`
swaps the `ReadWrite` and `ReadOnly` fields through its positional struct
literal; the current revision (`src/unnamed/part_002`, required by
`src/pg/pg.go`) assigns the fields by name and fixes this. -/
theorem legacy_tenantSchemaGroupNames_swaps_rw_ro :
    (tenantSchemaGroupNamesLegacy "acme" "billing").ReadWrite =
      "acme_billing_ro_grp" ∧
    (tenantSchemaGroupNamesLegacy "acme" "billing").ReadOnly =
      "acme_billing_rw_grp" ∧
    (tenantSchemaGroupNames "acme" "billing").ReadWrite =
      "acme_billing_rw_grp" := by decide

/-- C8: for every tenant key, schema name (and entropy source), the three
tier group-role names and the three tier user names are pairwise
distinct. -/
theorem C8_derived_names_pairwise_distinct (k s : String)
    (e : Nat → Nat → Option Nat) :
    List.Pairwise (fun a b => a ≠ b)
      [(tenantSchemaGroupNames k s).Admin,
       (tenantSchemaGroupNames k s).ReadWrite,
       (tenantSchemaGroupNames k s).ReadOnly,
       (newTenantSchemaUserCredentials k s e).Admin.Username,
       (newTenantSchemaUserCredentials k s e).ReadWrite.Username,
       (newTenantSchemaUserCredentials k s e).ReadOnly.Username] := by
  have base : List.Pairwise (fun a b : String => a ≠ b)
      ["_schadm_grp", "_rw_grp", "_ro_grp", "_schadm_usr", "_rw_usr",
       "_ro_usr"] := by decide
  have mapped := List.Pairwise.map (fun a => tenantSchemaPre k s ++ a)
    (fun a b hab => append_left_ne (tenantSchemaPre k s) a b hab) base
  have heq : [(tenantSchemaGroupNames k s).Admin,
       (tenantSchemaGroupNames k s).ReadWrite,
       (tenantSchemaGroupNames k s).ReadOnly,
       (newTenantSchemaUserCredentials k s e).Admin.Username,
       (newTenantSchemaUserCredentials k s e).ReadWrite.Username,
       (newTenantSchemaUserCredentials k s e).ReadOnly.Username] =
      List.map (fun a => tenantSchemaPre k s ++ a)
        ["_schadm_grp", "_rw_grp", "_ro_grp", "_schadm_usr", "_rw_usr",
         "_ro_usr"] := by
    simp only [tenantSchemaGroupNames, newTenantSchemaUserCredentials,
      List.map, schemaAdminSuffix, groupSuffix, userSuffix, roSuffix,
      rwSuffix, str_append_assoc]
    rfl
  rw [heq]
  exact mapped

/-!
Section: Password-generator theorems
-/

theorem pickChar_mem (cs : List Char) (h : cs ≠ []) (k : Nat) :
    pickChar cs k ∈ cs := by
  unfold pickChar
  have hlen : k % cs.length < cs.length :=
    Nat.mod_lt _ (List.length_pos.mpr h)
  rw [List.getD_eq_getElem _ _ hlen]
  exact List.getElem_mem hlen

theorem genFrom_ok (cs : List Char) (h : cs ≠ []) (entropy : Nat → Option Nat) :
    ∀ (n i : Nat) (l : List Char), genFrom cs entropy i n = some l →
      l.length = n ∧ ∀ c ∈ l, c ∈ cs := by
  intro n
  induction n with
  | zero =>
    intro i l hl
    simp only [genFrom] at hl
    cases hl
    simp
  | succ m ih =>
    intro i l hl
    simp only [genFrom] at hl
    cases he : entropy i with
    | none => rw [he] at hl; cases hl
    | some k =>
      rw [he] at hl
      cases hg : genFrom cs entropy (i + 1) m with
      | none => rw [hg] at hl; cases hl
      | some rest =>
        rw [hg] at hl
        cases hl
        obtain ⟨hlen, hmem⟩ := ih (i + 1) rest hg
        refine ⟨by simp [hlen], ?_⟩
        intro c hc
        rcases List.mem_cons.mp hc with hc | hc
        · subst hc; exact pickChar_mem cs h k
        · exact hmem c hc

theorem buildCharset_ne_nil (config : PasswordConfig) :
    buildCharset config ≠ [] := by
  unfold buildCharset
  by_cases h : buildCharsetPre config = []
  · rw [if_pos h]; decide
  · rw [if_neg h]; exact h

/-- Successful generation yields a password of the configured length (32
when `Length` is zero) drawn entirely from the built charset. -/
theorem GenerateRandomPassword_ok (config : PasswordConfig)
    (entropy : Nat → Option Nat)
    (h : (GenerateRandomPassword config entropy).2 = none) :
    (GenerateRandomPassword config entropy).1.length =
      (if config.Length = 0 then 32 else config.Length) ∧
    ∀ c ∈ (GenerateRandomPassword config entropy).1.data,
      c ∈ buildCharset config := by
  simp only [GenerateRandomPassword] at h ⊢
  cases hg : genFrom (buildCharset config) entropy 0
      (if config.Length = 0 then 32 else config.Length) with
  | none => rw [hg] at h; simp at h
  | some l =>
    obtain ⟨hlen, hmem⟩ :=
      genFrom_ok (buildCharset config) (buildCharset_ne_nil config) entropy
        (if config.Length = 0 then 32 else config.Length) 0 l hg
    exact ⟨hlen, hmem⟩

theorem applyExclude_subset (ex cs : List Char) :
    ∀ c ∈ applyExclude cs ex, c ∈ cs := by
  induction ex generalizing cs with
  | nil => intro c hc; exact hc
  | cons x ex' ih =>
    intro c hc
    have := ih (cs.filter (fun y => y ≠ x)) c hc
    exact List.mem_of_mem_filter this

/-- Under `UseNum = true`, `UseLetters = false`, `UseSpecial = false`, the
built charset is the digits charset stripped of `ExcludeSpecial`, provided
the stripping leaves it nonempty (otherwise the letters+digits fallback
fires). -/
theorem buildCharset_num_only (config : PasswordConfig)
    (hNum : config.UseNum = true) (hLet : config.UseLetters = false)
    (hSp : config.UseSpecial = false)
    (hSurv : applyExclude numbersStr.data config.ExcludeSpecial.data ≠ []) :
    buildCharset config = applyExclude numbersStr.data config.ExcludeSpecial.data := by
  have hpre : buildCharsetPre config =
      applyExclude numbersStr.data config.ExcludeSpecial.data := by
    unfold buildCharsetPre
    rw [hNum, hLet, hSp]
    simp only [Bool.false_eq_true, if_false, if_true, List.nil_append,
      List.append_nil]
    by_cases hex : config.ExcludeSpecial = ""
    · rw [if_pos hex, hex]
      rfl
    · rw [if_neg hex]
  unfold buildCharset
  rw [hpre, if_neg hSurv]

/-- The single-quote character, written by code point to keep the sources
plain. -/
def singleQuoteChar : Char := Char.ofNat 39

/-- C4 (counterexample): the claim quantifies over EVERY `PasswordConfig`
with `UseNum` and neither letters nor special characters, but
`ExcludeSpecial` is stripped from the whole built charset, so a config
whose exclusions remove all ten digits falls back to the letters+digits
charset and produces letters: with `ExcludeSpecial = "0123456789"` and a
constantly-zero entropy stream the generated password contains `a`, which
is not a decimal digit. -/
theorem C4_counterexample :
    (GenerateRandomPassword
      { UseNum := true, ExcludeSpecial := "0123456789" }
      (fun _ => some 0)).2 = none ∧
    'a' ∈ (GenerateRandomPassword
      { UseNum := true, ExcludeSpecial := "0123456789" }
      (fun _ => some 0)).1.data ∧
    'a' ∉ numbersStr.data := by decide

/-- C4 (amended): for every `PasswordConfig` with `UseNum` true,
`UseLetters` false and `UseSpecial` false WHOSE `ExcludeSpecial` LEAVES AT
LEAST ONE DIGIT, a successfully generated password consists only of
decimal digits, has length equal to the configured `Length`, and has
length 32 when `Length` is unset (zero). -/
theorem C4_digits_only_amended (config : PasswordConfig)
    (entropy : Nat → Option Nat)
    (hNum : config.UseNum = true) (hLet : config.UseLetters = false)
    (hSp : config.UseSpecial = false)
    (hSurv : applyExclude numbersStr.data config.ExcludeSpecial.data ≠ [])
    (hOk : (GenerateRandomPassword config entropy).2 = none) :
    (∀ c ∈ (GenerateRandomPassword config entropy).1.data,
      c ∈ numbersStr.data) ∧
    (GenerateRandomPassword config entropy).1.length =
      (if config.Length = 0 then 32 else config.Length) ∧
    (config.Length = 0 →
      (GenerateRandomPassword config entropy).1.length = 32) := by
  obtain ⟨hlen, hmem⟩ := GenerateRandomPassword_ok config entropy hOk
  have hcs := buildCharset_num_only config hNum hLet hSp hSurv
  refine ⟨?_, hlen, ?_⟩
  · intro c hc
    have hm := hmem c hc
    rw [hcs] at hm
    exact applyExclude_subset _ _ c hm
  · intro h0
    rw [hlen, if_pos h0]

/-- C4 (witness): a digits-only config with `Length = 5` and exclusion of
the digit `0` yields a 5-character all-digit password. -/
theorem C4_witness :
    (∀ c ∈ (GenerateRandomPassword
        { Length := 5, UseNum := true, ExcludeSpecial := "0" }
        (fun _ => some 3)).1.data, c ∈ numbersStr.data) ∧
    (GenerateRandomPassword
        { Length := 5, UseNum := true, ExcludeSpecial := "0" }
        (fun _ => some 3)).1.length = 5 := by
  have h := C4_digits_only_amended
    { Length := 5, UseNum := true, ExcludeSpecial := "0" } (fun _ => some 3)
    rfl rfl rfl (by decide) (by decide)
  exact ⟨h.1, by simpa using h.2.1⟩

/-- C5: when the entropy source fails, `newTenantSchemaUserCredentials`
silently continues: it returns the three credentials with EMPTY passwords
and surfaces no error (its return type carries none), even though the
generator itself did report the failure — the `_` in
`adminPassword, _ := GenerateRandomPassword(...)` discards it. -/
theorem C5_entropy_failure_silent_empty_password :
    newTenantSchemaUserCredentials "acme" "billing" (fun _ _ => none) =
      { Admin := { Username := "acme_billing_schadm_usr", Password := "" },
        ReadWrite := { Username := "acme_billing_rw_usr", Password := "" },
        ReadOnly := { Username := "acme_billing_ro_usr", Password := "" } } ∧
    (GenerateRandomPassword {} (fun _ => none)).2 ≠ none := by decide

/-- C9: the credential constructor always calls the generator with the
zero-value `PasswordConfig`, whose empty character-class selection falls
back to the letters+digits charset; hence every successfully generated
tenant-user password has length exactly 32, consists only of ASCII letters
and decimal digits, and in particular never contains a single quote that
could break the `CREATE ROLE ... PASSWORD '...'` literal. -/
theorem C9_passwords_alphanumeric_len32 (k s : String)
    (e : Nat → Nat → Option Nat) :
    buildCharset {} = lettersStr.data ++ numbersStr.data ∧
    ((GenerateRandomPassword {} (e 0)).2 = none →
      (newTenantSchemaUserCredentials k s e).Admin.Password.length = 32 ∧
      ∀ c ∈ (newTenantSchemaUserCredentials k s e).Admin.Password.data,
        (c ∈ lettersStr.data ∨ c ∈ numbersStr.data) ∧ c ≠ singleQuoteChar) ∧
    ((GenerateRandomPassword {} (e 1)).2 = none →
      (newTenantSchemaUserCredentials k s e).ReadWrite.Password.length = 32 ∧
      ∀ c ∈ (newTenantSchemaUserCredentials k s e).ReadWrite.Password.data,
        (c ∈ lettersStr.data ∨ c ∈ numbersStr.data) ∧ c ≠ singleQuoteChar) ∧
    ((GenerateRandomPassword {} (e 2)).2 = none →
      (newTenantSchemaUserCredentials k s e).ReadOnly.Password.length = 32 ∧
      ∀ c ∈ (newTenantSchemaUserCredentials k s e).ReadOnly.Password.data,
        (c ∈ lettersStr.data ∨ c ∈ numbersStr.data) ∧ c ≠ singleQuoteChar) := by
  have hchar : buildCharset ({} : PasswordConfig) =
      lettersStr.data ++ numbersStr.data := by decide
  have key : ∀ (e1 : Nat → Option Nat), (GenerateRandomPassword {} e1).2 = none →
      (GenerateRandomPassword {} e1).1.length = 32 ∧
      ∀ c ∈ (GenerateRandomPassword {} e1).1.data,
        (c ∈ lettersStr.data ∨ c ∈ numbersStr.data) ∧ c ≠ singleQuoteChar := by
    intro e1 h
    obtain ⟨hlen, hmem⟩ := GenerateRandomPassword_ok {} e1 h
    constructor
    · simpa using hlen
    · intro c hc
      have hm := hmem c hc
      rw [hchar] at hm
      refine ⟨List.mem_append.mp hm, ?_⟩
      intro hq
      subst hq
      revert hm
      decide
  exact ⟨hchar, fun h => key (e 0) h, fun h => key (e 1) h, fun h => key (e 2) h⟩

/-- C9 (witness): with a live entropy source the admin-tier password of the
`acme`/`billing` credentials is 32 alphanumeric characters. -/
theorem C9_witness :
    (newTenantSchemaUserCredentials "acme" "billing"
      (fun _ _ => some 0)).Admin.Password.length = 32 ∧
    ∀ c ∈ (newTenantSchemaUserCredentials "acme" "billing"
      (fun _ _ => some 0)).Admin.Password.data,
      (c ∈ lettersStr.data ∨ c ∈ numbersStr.data) ∧ c ≠ singleQuoteChar :=
  (C9_passwords_alphanumeric_len32 "acme" "billing"
    (fun _ _ => some 0)).2.1 (by decide)

/-!
Section: Executor theorems
-/

theorem auditAppend_executed (w : World) (s : St) (line : String) :
    (auditAppend w s line).executed = s.executed := by
  unfold auditAppend; split; rfl; split <;> rfl

theorem auditAppend_exited (w : World) (s : St) (line : String) :
    (auditAppend w s line).exited = s.exited := by
  unfold auditAppend; split; rfl; split <;> rfl

theorem RunExec_fst_executed (w : World) (s : St) (sql : String)
    (hAlive : s.exited = false) :
    ((RunExec w s sql).1).executed = s.executed ++ [sql] := by
  unfold RunExec
  simp only [hAlive, Bool.false_eq_true, if_false]
  cases h : w.execErr sql with
  | none => simp [auditAppend_executed]
  | some e =>
    cases hh : w.haltOnError with
    | false => simp [auditAppend_executed]
    | true => simp

theorem RunExec_fst_exited (w : World) (s : St) (sql : String)
    (hAlive : s.exited = false) :
    ((RunExec w s sql).1).exited = (w.haltOnError && (w.execErr sql).isSome) := by
  unfold RunExec
  simp only [hAlive, Bool.false_eq_true, if_false]
  cases h : w.execErr sql with
  | none => simp [auditAppend_exited, hAlive]
  | some e =>
    cases hh : w.haltOnError with
    | false => simp [auditAppend_exited, hAlive]
    | true => simp

theorem RunExec_ok (w : World) (s : St) (sql : String)
    (hAlive : s.exited = false) (h : w.execErr sql = none) :
    RunExec w s sql =
      (auditAppend w { s with executed := s.executed ++ [sql] } sql, none) := by
  unfold RunExec
  simp only [hAlive, Bool.false_eq_true, if_false, h]

theorem RunExec_fail_halt (w : World) (s : St) (sql e : String)
    (hAlive : s.exited = false) (h : w.execErr sql = some e)
    (hh : w.haltOnError = true) :
    RunExec w s sql =
      ({ s with executed := s.executed ++ [sql], exited := true },
       some (e ++ "\nwith sql:\n" ++ sql)) := by
  unfold RunExec
  simp only [hAlive, Bool.false_eq_true, if_false, h, hh, if_true]

theorem RunExec_fail_nohalt (w : World) (s : St) (sql e : String)
    (hAlive : s.exited = false) (h : w.execErr sql = some e)
    (hh : w.haltOnError = false) :
    RunExec w s sql =
      (auditAppend w { s with executed := s.executed ++ [sql] } sql,
       some (e ++ "\nwith sql:\n" ++ sql)) := by
  unfold RunExec
  simp only [hAlive, Bool.false_eq_true, if_false, h, hh]

theorem RunExec_fst_nohalt (w : World) (s : St) (sql : String)
    (hAlive : s.exited = false) (hh : w.haltOnError = false) :
    (RunExec w s sql).1 =
      auditAppend w { s with executed := s.executed ++ [sql] } sql := by
  cases h : w.execErr sql with
  | none => rw [RunExec_ok w s sql hAlive h]
  | some e => rw [RunExec_fail_nohalt w s sql e hAlive h hh]


theorem RunExec_some_halt (w : World) (s : St) (sql : String)
    (hAlive : s.exited = false) (h : (w.execErr sql).isSome = true)
    (hh : w.haltOnError = true) :
    RunExec w s sql =
      ({ s with executed := s.executed ++ [sql], exited := true },
       (w.execErr sql).map (fun e => e ++ "\nwith sql:\n" ++ sql)) := by
  cases he : w.execErr sql with
  | none => rw [he] at h; simp at h
  | some e => rw [RunExec_fail_halt w s sql e hAlive he hh]; rfl

theorem RunExec_some_nohalt (w : World) (s : St) (sql : String)
    (hAlive : s.exited = false) (h : (w.execErr sql).isSome = true)
    (hh : w.haltOnError = false) :
    RunExec w s sql =
      (auditAppend w { s with executed := s.executed ++ [sql] } sql,
       (w.execErr sql).map (fun e => e ++ "\nwith sql:\n" ++ sql)) := by
  cases he : w.execErr sql with
  | none => rw [he] at h; simp at h
  | some e => rw [RunExec_fail_nohalt w s sql e hAlive he hh]; rfl

/-- C2: `DropRole` executes no SQL when the existence check reports the
role absent, and otherwise executes exactly the combined
reassign-owned / set-role / drop-owned / reset-role statement followed by
the role drop, in that order (stated for a live process, in any mode in
which the run is not cut short between the two statements by
halt-on-error). -/
theorem C2_DropRole_teardown_order (w : World) (s : St) (r : String)
    (hAlive : s.exited = false)
    (hMode : w.haltOnError = false ∨
      w.execErr (dropOwnedByRoleStmt r w.opRole) = none) :
    (DropRole w s r).executed =
      s.executed ++
        (if CheckIfRoleExists w r then
          [dropOwnedByRoleStmt r w.opRole, dropRoleStmt r] else []) := by
  unfold DropRole
  simp only [hAlive, Bool.false_eq_true, if_false]
  by_cases hex : CheckIfRoleExists w r
  · rw [if_pos hex, if_pos hex]
    have h1e := RunExec_fst_exited w s (dropOwnedByRoleStmt r w.opRole) hAlive
    have halive2 :
        ((RunExec w s (dropOwnedByRoleStmt r w.opRole)).1).exited = false := by
      rw [h1e]
      rcases hMode with hm | hm <;> simp [hm]
    rw [RunExec_fst_executed _ _ _ halive2,
      RunExec_fst_executed _ _ _ hAlive, List.append_assoc]
    rfl
  · rw [if_neg hex, if_neg hex]
    simp

/-- C2 (witness): dropping an existing role `acme_owner` as operator
`postgres` runs exactly the reassign/drop-owned statement then the role
drop. -/
theorem C2_witness :
    (DropRole { roleExistsO := fun _ => true } {} "acme_owner").executed =
      [dropOwnedByRoleStmt "acme_owner" "postgres",
       dropRoleStmt "acme_owner"] := by
  have h := C2_DropRole_teardown_order { roleExistsO := fun _ => true } {}
    "acme_owner" rfl (Or.inl rfl)
  simpa [CheckIfRoleExists] using h

/-- C3 (counterexample): with an audit sink configured AND halt-on-error
set, a failing statement IS executed but is NOT appended to the audit sink
— the process exits first — refuting the claim that the SQL text is
appended in every error-handling mode including halt-on-error. -/
theorem C3_counterexample :
    (RunExec
      { haltOnError := true, auditOn := true, execErr := fun _ => some "boom" }
      {} "CREATE SCHEMA billing;").1.audit = [] ∧
    (RunExec
      { haltOnError := true, auditOn := true, execErr := fun _ => some "boom" }
      {} "CREATE SCHEMA billing;").1.executed = ["CREATE SCHEMA billing;"] ∧
    (RunExec
      { haltOnError := true, auditOn := true, execErr := fun _ => some "boom" }
      {} "CREATE SCHEMA billing;").1.exited = true := by decide

/-- C3 (amended): with an audit sink configured, every call to the
executor appends the executed SQL text verbatim at the end of the audit
sink (hence in execution order), whether the statement succeeds or fails —
EXCEPT that in halt-on-error mode a failing statement terminates the
process before the append, so that one statement is absent from the
audit. -/
theorem C3_audit_append_amended (w : World) (s : St) (sql : String)
    (hAlive : s.exited = false) (hAudit : w.auditOn = true) :
    ((w.haltOnError = true ∧ (w.execErr sql).isSome = true) →
      (RunExec w s sql).1.audit = s.audit) ∧
    (¬(w.haltOnError = true ∧ (w.execErr sql).isSome = true) →
      (RunExec w s sql).1.audit = s.audit ++ [sql]) ∧
    (RunExec w s sql).1.executed = s.executed ++ [sql] := by
  refine ⟨?_, ?_, RunExec_fst_executed w s sql hAlive⟩
  · rintro ⟨hh, hsome⟩
    cases he : w.execErr sql with
    | none => rw [he] at hsome; simp at hsome
    | some e => rw [RunExec_fail_halt w s sql e hAlive he hh]
  · intro hnot
    cases he : w.execErr sql with
    | none =>
      rw [RunExec_ok w s sql hAlive he]
      unfold auditAppend
      simp [hAudit, hAlive]
    | some e =>
      cases hh : w.haltOnError with
      | true => exact absurd ⟨hh, by rw [he]; rfl⟩ hnot
      | false =>
        rw [RunExec_fail_nohalt w s sql e hAlive he hh]
        unfold auditAppend
        simp [hAudit, hAlive]

/-- C3 (witness): a successful statement with the audit sink configured is
appended to the audit. -/
theorem C3_witness :
    (RunExec { auditOn := true } {} "SELECT 1;").1.audit = ["SELECT 1;"] := by
  have h := C3_audit_append_amended { auditOn := true } {} "SELECT 1;" rfl rfl
  have h2 := h.2.1 (by simp)
  simpa using h2

/-- C10: for every schema name, tenant name and connection config with an
empty database name, `NewTenantSchema` returns a non-nil error
immediately, executes no SQL statement, and emits no credentials. -/
theorem C10_missing_dbname_no_sql (w : World)
    (schemaName tenantName roleName : String) :
    (NewTenantSchema w schemaName tenantName
      { DBName := "", RoleName := roleName }).err ≠ none ∧
    (NewTenantSchema w schemaName tenantName
      { DBName := "", RoleName := roleName }).s.executed = [] ∧
    (NewTenantSchema w schemaName tenantName
      { DBName := "", RoleName := roleName }).s.audit = [] ∧
    (NewTenantSchema w schemaName tenantName
      { DBName := "", RoleName := roleName }).emitted = none := by
  refine ⟨?_, rfl, rfl, rfl⟩
  intro h
  simp [NewTenantSchema] at h

/-!
Section: Orchestrator theorems
-/

theorem append_ne_empty (a b : String) (hb : b ≠ "") : a ++ b ≠ "" := by
  intro he
  apply hb
  apply String.ext
  have hd := congrArg String.data he
  rw [String.data_append] at hd
  have := List.append_eq_nil.mp hd
  exact this.2

theorem schemaSessionRole_ne_empty (d t r : String) :
    schemaSessionRole d t r ≠ "" := by
  unfold schemaSessionRole tenantOwnerName
  by_cases hr : r = ""
  · rw [if_pos hr]
    exact append_ne_empty _ _ (by decide)
  · rw [if_neg hr]; exact hr

theorem ne_of_ne_pre (p q a b : String) (hlen : p.length = q.length)
    (hpq : p ≠ q) : p ++ a ≠ q ++ b := by
  intro he
  apply hpq
  have hd := congrArg String.data he
  rw [String.data_append, String.data_append] at hd
  have hl : p.data.length = q.data.length := hlen
  obtain ⟨h1, _⟩ := List.append_inj hd hl
  exact String.ext h1

theorem createGroup_ne_setRole (g r : String) :
    createGroupStmt g ≠ setRoleStmt r := by
  unfold createGroupStmt setRoleStmt
  rw [str_append_assoc, str_append_assoc]
  rw [show ("CREATE ROLE " : String) = "C" ++ "REATE ROLE " from rfl,
    show ("SET ROLE " : String) = "S" ++ "ET ROLE " from rfl,
    str_append_assoc, str_append_assoc]
  exact ne_of_ne_pre "C" "S" _ _ rfl (by decide)

theorem createGroup_ne_dropSchema (g x : String) :
    createGroupStmt g ≠ dropSchemaStmt x := by
  unfold createGroupStmt dropSchemaStmt
  rw [str_append_assoc, str_append_assoc]
  rw [show ("CREATE ROLE " : String) = "C" ++ "REATE ROLE " from rfl,
    show ("DROP SCHEMA IF EXISTS " : String) = "D" ++ "ROP SCHEMA IF EXISTS "
      from rfl,
    str_append_assoc, str_append_assoc]
  exact ne_of_ne_pre "C" "D" _ _ rfl (by decide)

theorem createGroup_ne_createSchema (g x : String) :
    createGroupStmt g ≠ createSchemaStmt x := by
  unfold createGroupStmt createSchemaStmt
  rw [str_append_assoc, str_append_assoc]
  rw [show ("CREATE ROLE " : String) = "CREATE R" ++ "OLE " from rfl,
    show ("CREATE SCHEMA " : String) = "CREATE S" ++ "CHEMA " from rfl,
    str_append_assoc, str_append_assoc]
  exact ne_of_ne_pre "CREATE R" "CREATE S" _ _ rfl (by decide)

theorem createGroup_ne_resetRole (g : String) :
    createGroupStmt g ≠ resetRoleStmt := by
  unfold createGroupStmt resetRoleStmt
  rw [str_append_assoc]
  rw [show ("CREATE ROLE " : String) = "C" ++ "REATE ROLE " from rfl,
    show ("RESET ROLE;" : String) = "R" ++ "ESET ROLE;" from rfl,
    str_append_assoc]
  exact ne_of_ne_pre "C" "R" _ _ rfl (by decide)

/-- C6: if the CREATE SCHEMA step of `NewTenantSchema` fails, the run
stops at that point: the trace is exactly the scoped-session setup, the
schema drop and the failed schema creation (plus, in best-effort mode, the
deferred `RESET ROLE` of the closing connection); in halt-on-error mode
the process has exited, otherwise a non-nil error is returned; no
credentials are emitted; and — in particular — no `CREATE ROLE ... WITH
NOLOGIN` group-creation statement for any role is ever executed. -/
theorem C6_create_schema_failure_stops_run (w : World)
    (schemaName tenantName dbName roleName emsg : String)
    (hdb : dbName ≠ "")
    (hConn : w.connectErr dbName = none)
    (hAcq : w.acquireErr dbName = none)
    (hSet : w.execErr
      (setRoleStmt (schemaSessionRole dbName tenantName roleName)) = none)
    (hDrop : w.execErr (dropSchemaStmt schemaName) = none)
    (hCreate : w.execErr (createSchemaStmt schemaName) = some emsg) :
    (NewTenantSchema w schemaName tenantName
      { DBName := dbName, RoleName := roleName }).s.executed =
      [setRoleStmt (schemaSessionRole dbName tenantName roleName),
       dropSchemaStmt schemaName, createSchemaStmt schemaName] ++
      (if w.haltOnError then [] else [resetRoleStmt]) ∧
    (NewTenantSchema w schemaName tenantName
      { DBName := dbName, RoleName := roleName }).s.exited = w.haltOnError ∧
    (NewTenantSchema w schemaName tenantName
      { DBName := dbName, RoleName := roleName }).err ≠ none ∧
    (NewTenantSchema w schemaName tenantName
      { DBName := dbName, RoleName := roleName }).emitted = none ∧
    ∀ g : String, createGroupStmt g ∉
      (NewTenantSchema w schemaName tenantName
        { DBName := dbName, RoleName := roleName }).s.executed := by
  have hrole := schemaSessionRole_ne_empty dbName tenantName roleName
  have hmain : (NewTenantSchema w schemaName tenantName
      { DBName := dbName, RoleName := roleName }).s.executed =
      [setRoleStmt (schemaSessionRole dbName tenantName roleName),
       dropSchemaStmt schemaName, createSchemaStmt schemaName] ++
      (if w.haltOnError then [] else [resetRoleStmt]) ∧
    (NewTenantSchema w schemaName tenantName
      { DBName := dbName, RoleName := roleName }).s.exited = w.haltOnError ∧
    (NewTenantSchema w schemaName tenantName
      { DBName := dbName, RoleName := roleName }).err ≠ none ∧
    (NewTenantSchema w schemaName tenantName
      { DBName := dbName, RoleName := roleName }).emitted = none := by
    cases hHalt : w.haltOnError with
    | true =>
      simp only [NewTenantSchema, ConnectDB, acquireConn, closeScoped, hdb,
        hConn, hAcq, hSet, hDrop, hCreate, hrole, hHalt,
        RunExec_ok, RunExec_some_halt, auditAppend_exited, auditAppend_executed,
        Option.isSome_some, Option.map_some', Bool.false_eq_true, if_false,
        if_true, ite_false, ite_true, List.nil_append, ne_eq,
        not_false_eq_true]
      simp
    | false =>
      simp only [NewTenantSchema, ConnectDB, acquireConn, closeScoped, hdb,
        hConn, hAcq, hSet, hDrop, hCreate, hrole, hHalt,
        RunExec_ok, RunExec_some_nohalt, RunExec_fst_nohalt, auditAppend_exited,
        auditAppend_executed, Option.isSome_some, Option.map_some',
        Bool.false_eq_true, if_false, if_true, ite_false, ite_true,
        List.nil_append, ne_eq, not_false_eq_true]
      simp [List.append_assoc]
  refine ⟨hmain.1, hmain.2.1, hmain.2.2.1, hmain.2.2.2, ?_⟩
  intro g
  rw [hmain.1]
  intro hmem
  rcases List.mem_append.mp hmem with hmem | hmem
  · rcases List.mem_cons.mp hmem with h | hmem
    · exact createGroup_ne_setRole g _ h
    · rcases List.mem_cons.mp hmem with h | hmem
      · exact createGroup_ne_dropSchema g _ h
      · rcases List.mem_cons.mp hmem with h | hmem
        · exact createGroup_ne_createSchema g _ h
        · exact List.not_mem_nil _ hmem
  · cases hh : w.haltOnError with
    | true => rw [hh] at hmem; simp at hmem
    | false =>
      rw [hh] at hmem
      simp at hmem
      exact createGroup_ne_resetRole g hmem

/-- C6 (witness): a concrete best-effort run against database `acme`
where only `CREATE SCHEMA billing;` fails stops after the failed creation
(plus the deferred session reset) and returns an error. -/
theorem C6_witness :
    (NewTenantSchema
      { execErr := fun q =>
          if q = createSchemaStmt "billing" then some "boom" else none }
      "billing" "" { DBName := "acme" }).s.executed =
      ["SET ROLE acme_owner;", "DROP SCHEMA IF EXISTS billing CASCADE;",
       "CREATE SCHEMA billing;", "RESET ROLE;"] ∧
    (NewTenantSchema
      { execErr := fun q =>
          if q = createSchemaStmt "billing" then some "boom" else none }
      "billing" "" { DBName := "acme" }).err ≠ none := by
  have h := C6_create_schema_failure_stops_run
    { execErr := fun q =>
        if q = createSchemaStmt "billing" then some "boom" else none }
    "billing" "" "acme" "" "boom" (by decide) rfl rfl (by decide) (by decide)
    (by decide)
  refine ⟨?_, h.2.2.1⟩
  rw [h.1]
  decide

/-- C7: in `NewTenantDB` (best-effort mode, against a database and owner
role the catalog reports as existing), if assigning ownership of the newly
created database fails, the orchestrator drops the database and then drops
the owner role before returning the error; and if creating the database
fails, it drops the owner role it just created before returning the
error.  The statement pins the complete trace, so the claimed cleanup and
its order are visible at its tail. -/
theorem C7_tenant_db_failure_cleanup (w : World)
    (dbName tenantName emsg : String)
    (hHalt : w.haltOnError = false)
    (hOwner : w.roleExistsO
      (tenantOwnerName (roleNameBase dbName tenantName)) = true)
    (hDb : w.dbExistsO dbName = true)
    (hCG : w.execErr
      (createGroupStmt (tenantOwnerName (roleNameBase dbName tenantName))) =
        none) :
    (w.execErr (createDBStmt dbName) = some emsg →
      (NewTenantDB w dbName tenantName).2 ≠ none ∧
      (NewTenantDB w dbName tenantName).1.executed =
        [alterDBOwnerStmt dbName w.opRole, dropDBStmt dbName,
         dropOwnedByRoleStmt (tenantOwnerName (roleNameBase dbName tenantName))
           w.opRole,
         dropRoleStmt (tenantOwnerName (roleNameBase dbName tenantName)),
         createGroupStmt (tenantOwnerName (roleNameBase dbName tenantName)),
         createDBStmt dbName,
         dropOwnedByRoleStmt (tenantOwnerName (roleNameBase dbName tenantName))
           w.opRole,
         dropRoleStmt (tenantOwnerName (roleNameBase dbName tenantName))]) ∧
    (w.execErr (createDBStmt dbName) = none →
      w.execErr (alterDBOwnerStmt dbName
        (tenantOwnerName (roleNameBase dbName tenantName))) = some emsg →
      (NewTenantDB w dbName tenantName).2 ≠ none ∧
      (NewTenantDB w dbName tenantName).1.executed =
        [alterDBOwnerStmt dbName w.opRole, dropDBStmt dbName,
         dropOwnedByRoleStmt (tenantOwnerName (roleNameBase dbName tenantName))
           w.opRole,
         dropRoleStmt (tenantOwnerName (roleNameBase dbName tenantName)),
         createGroupStmt (tenantOwnerName (roleNameBase dbName tenantName)),
         createDBStmt dbName,
         alterDBOwnerStmt dbName
           (tenantOwnerName (roleNameBase dbName tenantName)),
         alterDBOwnerStmt dbName w.opRole, dropDBStmt dbName,
         dropOwnedByRoleStmt (tenantOwnerName (roleNameBase dbName tenantName))
           w.opRole,
         dropRoleStmt (tenantOwnerName (roleNameBase dbName tenantName))]) := by
  constructor
  · intro hCreateDB
    simp only [NewTenantDB, DropDB, DropRole, CheckIfDBExists,
      CheckIfRoleExists, CreateGroup, ConnectDB, acquireConn, closeScoped,
      hHalt, hOwner, hDb, hCG, hCreateDB,
      RunExec_ok, RunExec_some_nohalt, RunExec_fst_nohalt, auditAppend_exited,
      auditAppend_executed, Option.isSome_some, Option.map_some',
      Bool.false_eq_true, if_false, if_true, ite_false, ite_true,
      List.nil_append, ne_eq, not_false_eq_true]
    simp [List.append_assoc]
  · intro hCreateDB hAlter
    simp only [NewTenantDB, DropDB, DropRole, CheckIfDBExists,
      CheckIfRoleExists, CreateGroup, ConnectDB, acquireConn, closeScoped,
      hHalt, hOwner, hDb, hCG, hCreateDB, hAlter,
      RunExec_ok, RunExec_some_nohalt, RunExec_fst_nohalt, auditAppend_exited,
      auditAppend_executed, Option.isSome_some, Option.map_some',
      Bool.false_eq_true, if_false, if_true, ite_false, ite_true,
      List.nil_append, ne_eq, not_false_eq_true]
    simp [List.append_assoc]

/-- C7 (witness): concrete best-effort runs against database `acme`
(tenant key unset, operator `postgres`): when only `CREATE DATABASE acme;`
fails the trace ends by dropping the freshly created `acme_owner` role;
when only the ownership transfer to `acme_owner` fails the trace ends by
dropping the database and then the owner role. -/
theorem C7_witness :
    ((NewTenantDB
        { roleExistsO := fun _ => true, dbExistsO := fun _ => true,
          execErr := fun q =>
            if q = createDBStmt "acme" then some "boom" else none }
        "acme" "").2 ≠ none ∧
     (NewTenantDB
        { roleExistsO := fun _ => true, dbExistsO := fun _ => true,
          execErr := fun q =>
            if q = createDBStmt "acme" then some "boom" else none }
        "acme" "").1.executed =
      ["ALTER DATABASE acme OWNER TO postgres;",
       "DROP DATABASE IF EXISTS acme WITH (FORCE);",
       "REASSIGN OWNED BY acme_owner TO postgres; SET ROLE acme_owner; DROP OWNED BY acme_owner; RESET ROLE;",
       "DROP ROLE IF EXISTS acme_owner;",
       "CREATE ROLE acme_owner WITH NOLOGIN;",
       "CREATE DATABASE acme;",
       "REASSIGN OWNED BY acme_owner TO postgres; SET ROLE acme_owner; DROP OWNED BY acme_owner; RESET ROLE;",
       "DROP ROLE IF EXISTS acme_owner;"]) ∧
    ((NewTenantDB
        { roleExistsO := fun _ => true, dbExistsO := fun _ => true,
          execErr := fun q =>
            if q = alterDBOwnerStmt "acme" "acme_owner" then some "boom"
            else none }
        "acme" "").2 ≠ none ∧
     (NewTenantDB
        { roleExistsO := fun _ => true, dbExistsO := fun _ => true,
          execErr := fun q =>
            if q = alterDBOwnerStmt "acme" "acme_owner" then some "boom"
            else none }
        "acme" "").1.executed =
      ["ALTER DATABASE acme OWNER TO postgres;",
       "DROP DATABASE IF EXISTS acme WITH (FORCE);",
       "REASSIGN OWNED BY acme_owner TO postgres; SET ROLE acme_owner; DROP OWNED BY acme_owner; RESET ROLE;",
       "DROP ROLE IF EXISTS acme_owner;",
       "CREATE ROLE acme_owner WITH NOLOGIN;",
       "CREATE DATABASE acme;",
       "ALTER DATABASE acme OWNER TO acme_owner;",
       "ALTER DATABASE acme OWNER TO postgres;",
       "DROP DATABASE IF EXISTS acme WITH (FORCE);",
       "REASSIGN OWNED BY acme_owner TO postgres; SET ROLE acme_owner; DROP OWNED BY acme_owner; RESET ROLE;",
       "DROP ROLE IF EXISTS acme_owner;"]) := by
  constructor
  · have h := (C7_tenant_db_failure_cleanup
      { roleExistsO := fun _ => true, dbExistsO := fun _ => true,
        execErr := fun q =>
          if q = createDBStmt "acme" then some "boom" else none }
      "acme" "" "boom" rfl rfl rfl (by decide)).1 (by decide)
    exact ⟨h.1, by rw [h.2]; decide⟩
  · have h := (C7_tenant_db_failure_cleanup
      { roleExistsO := fun _ => true, dbExistsO := fun _ => true,
        execErr := fun q =>
          if q = alterDBOwnerStmt "acme" "acme_owner" then some "boom"
          else none }
      "acme" "" "boom" rfl rfl rfl (by decide)).2 (by decide) (by decide)
    exact ⟨h.1, by rw [h.2]; decide⟩
